import Mathlib

/-!
Shallow embedding of the `vscode-mock-debug` debug adapter
(`src/nnDebugAdapter.ts`, the `Handles` helper, and their data model),
with theorems checking the natural-language specification against it.

Machine numbers of the JavaScript source are modelled as `Int` (message
sequence numbers, handles, lines, columns) and `Rat` (JavaScript `number`
values held by runtime variables); strings as `String`; `undefined`-able
fields as `Option`; the mutable adapter object as an explicit state record
threaded through the operations; the transport as an explicit record of
emitted messages (`setImmediate`-deferred emissions are kept in a separate
queue that is delivered after the current turn).
-/

namespace MockDebug

/-! ## Handles (from the repository's `Handles<T>` class)

The map is represented as an association list where the most recent
binding is at the head, matching `Map.set`/`Map.get` observations. -/

/-- State of a `Handles<T>` table: the private `startHandle` field
(initialised to `1000` by the class body), the `_nextHandle` counter and
the `_handleMap`. -/
structure Handles (T : Type) where
  startHandle : Int
  nextHandle : Int
  handleMap : List (Int × T)

/-- `new Handles(startHandle?)`: `_nextHandle` is the argument when it is a
number, else the private `startHandle` field (1000). -/
def Handles.make (T : Type) (startHandle : Option Int) : Handles T :=
  { startHandle := 1000
    nextHandle := startHandle.getD 1000
    handleMap := [] }

/-- `reset()`: `_nextHandle = this.startHandle; _handleMap = new Map()`. -/
def Handles.reset {T : Type} (h : Handles T) : Handles T :=
  { h with nextHandle := h.startHandle, handleMap := [] }

/-- `create(value)`: returns `_nextHandle++` and binds it in the map. -/
def Handles.create {T : Type} (h : Handles T) (value : T) : Int × Handles T :=
  (h.nextHandle,
    { h with
      nextHandle := h.nextHandle + 1
      handleMap := (h.nextHandle, value) :: h.handleMap })

/-- `get(handle, defaultValue?)`: `this._handleMap.get(handle) || defaultValue`.
JavaScript `||` returns the default when the stored value is falsy, so the
caller supplies the truthiness predicate of `T`. An absent default is
`dflt = none`. -/
def Handles.get {T : Type} (h : Handles T) (truthy : T → Bool) (handle : Int)
    (dflt : Option T) : Option T :=
  match List.lookup handle h.handleMap with
  | some v => if truthy v then some v else dflt
  | none => dflt

/-- Folding `create` over a list of values, collecting the returned handles
in order. Used to state properties of arbitrary call sequences. -/
def Handles.createMany {T : Type} (h : Handles T) : List T → List Int × Handles T
  | [] => ([], h)
  | v :: vs =>
    let p := h.create v
    let q := p.2.createMany vs
    (p.1 :: q.1, q.2)

/-! ## Rendering of JavaScript numbers

`Rat` models the JavaScript `number` values stored in runtime variables.
`jsRound` models `Math.round` (floor of x + 1/2). `ratToStringBase`
models `Number.prototype.toString(base)` for values whose expansion in
the base terminates (every binary double has a terminating decimal
expansion; the model truncates a non-terminating expansion at 40 digits). -/

/-- `Math.round(x)`: the integer `⌊x + 1/2⌋`, computed directly on the
numerator and denominator (`x + 1/2 = (2 num + den) / (2 den)` with a
positive denominator, so its floor is the floored integer division). -/
def jsRound (q : Rat) : Int :=
  Int.fdiv (2 * q.num + q.den) (2 * q.den)

/-- Digits of a natural number in a base, as produced by
`Number.prototype.toString` (lowercase letters above 9). -/
def natToBaseString (base : Nat) (n : Nat) : String :=
  String.mk (Nat.toDigits base n)

/-- Integer rendering in a base with a leading minus sign, as
`Number.prototype.toString(base)` renders integral values. -/
def intToBaseString (base : Nat) (n : Int) : String :=
  if n < 0 then "-" ++ natToBaseString base n.natAbs else natToBaseString base n.natAbs

/-- Fractional digits of `rem / den` in a base by long division; stops when
the remainder is zero, or after `fuel` digits. -/
def fracDigits (base : Nat) : Nat → Nat → Nat → List Char
  | 0, _, _ => []
  | _ + 1, _, 0 => []
  | fuel + 1, den, rem =>
    let r := rem * base
    Nat.digitChar (r / den) :: fracDigits base fuel den (r % den)

/-- `Number.prototype.toString(base)`: integral values render with no
point; others as sign, integer part, point, fractional digits. -/
def ratToStringBase (base : Nat) (q : Rat) : String :=
  if q.den = 1 then intToBaseString base q.num
  else
    (if q < 0 then "-" else "") ++
      natToBaseString base (q.num.natAbs / q.den) ++ "." ++
      String.mk (fracDigits base 40 q.den (q.num.natAbs % q.den))

/-! ## formatPII (from `nnDebugAdapter.ts`)

`format.replace(/{([^}]+)}/g, ...)`: each non-overlapping occurrence of a
brace-delimited, nonempty, brace-free parameter name is replaced by its
argument value when allowed and present (and truthy), else left as is. -/

/-- The character code of an opening curly brace. -/
def openBrace : Char := Char.ofNat 123

/-- The character code of a closing curly brace. -/
def closeBrace : Char := Char.ofNat 125

/-- Splits `l` at the first closing brace: returns the (nonempty) run of
non-closing-brace characters before it and the remainder after it, or
`none` when the regular expression cannot match here. -/
def splitAtCloseBrace (l : List Char) : Option (List Char × List Char) :=
  let nm := l.takeWhile (fun c => c ≠ closeBrace)
  match l.dropWhile (fun c => c ≠ closeBrace) with
  | [] => none
  | _ :: rest => if nm.isEmpty then none else some (nm, rest)

/-- Association-list read of the `args` object; absent keys are `none`. -/
def lookupArg (args : List (String × String)) (k : String) : Option String :=
  List.lookup k args

/-- The replacement the callback of `formatPII` produces for one match:
keeps the match itself when PII is excluded and the name does not start
with an underscore, or when the argument is absent or falsy. -/
def piiReplacement (excludePII : Bool) (args : List (String × String))
    (nm : List Char) : List Char :=
  let original := openBrace :: (nm ++ [closeBrace])
  if excludePII && nm.headD ' ' ≠ '_' then original
  else
    match lookupArg args (String.mk nm) with
    | some v => if v = "" then original else v.toList
    | none => original

/-- Scanner for `formatPII`, with fuel bounding the recursion by the
length of the remaining input. -/
def formatPIIAux (excludePII : Bool) (args : List (String × String)) :
    Nat → List Char → List Char
  | 0, l => l
  | _ + 1, [] => []
  | fuel + 1, c :: rest =>
    if c = openBrace then
      match splitAtCloseBrace rest with
      | some (nm, rest') =>
        piiReplacement excludePII args nm ++ formatPIIAux excludePII args fuel rest'
      | none => c :: formatPIIAux excludePII args fuel rest
    else c :: formatPIIAux excludePII args fuel rest

/-- `formatPII(format, excludePII, args)` from `nnDebugAdapter.ts`. -/
def formatPII (format : String) (excludePII : Bool)
    (args : List (String × String)) : String :=
  String.mk (formatPIIAux excludePII args format.toList.length format.toList)

/-! ## Runtime variables (`RuntimeVariable`, `IRuntimeVariableType`)

`IRuntimeVariableType = number | boolean | string | RuntimeVariable[]` is
the tagged value; `RuntimeVariable` carries `name`, `_value`, the lazily
assigned `reference` and the lazily materialised `_memory` byte buffer. -/

mutual

/-- `IRuntimeVariableType`: a JavaScript number, boolean, string, or an
array of runtime variables. -/
inductive RTValue : Type where
  | num (q : Rat)
  | bool (b : Bool)
  | str (s : String)
  | arr (elems : List RuntimeVariable)

/-- `RuntimeVariable`: `name`, `_value`, `reference?` and `_memory?`. -/
inductive RuntimeVariable : Type where
  | mk (name : String) (value : RTValue) (reference : Option Int)
      (memoryCache : Option (List UInt8))

end

/-- The `name` field. -/
def RuntimeVariable.name : RuntimeVariable → String
  | .mk n _ _ _ => n

/-- The `_value` field. -/
def RuntimeVariable.value : RuntimeVariable → RTValue
  | .mk _ v _ _ => v

/-- The `reference` field. -/
def RuntimeVariable.reference : RuntimeVariable → Option Int
  | .mk _ _ r _ => r

/-- The `_memory` field. -/
def RuntimeVariable.memoryCache : RuntimeVariable → Option (List UInt8)
  | .mk _ _ _ m => m

/-- Assignment to the `reference` field. -/
def RuntimeVariable.withReference (v : RuntimeVariable) (r : Option Int) :
    RuntimeVariable :=
  match v with
  | .mk n val _ m => .mk n val r m

/-- Assignment to the `_memory` field. -/
def RuntimeVariable.withMemoryCache (v : RuntimeVariable)
    (m : Option (List UInt8)) : RuntimeVariable :=
  match v with
  | .mk n val r _ => .mk n val r m

/-- `new RuntimeVariable(name, value)`: `reference` and `_memory` start
undefined. -/
def RuntimeVariable.make (name : String) (value : RTValue) : RuntimeVariable :=
  .mk name value none none

/-- The `memory` getter: materialises the UTF-8 encoding of a string value
when the cache is empty, returning the buffer (or `undefined`) together
with the possibly updated variable. -/
def RuntimeVariable.memoryGet (v : RuntimeVariable) :
    Option (List UInt8) × RuntimeVariable :=
  match v.memoryCache with
  | some m => (some m, v)
  | none =>
    match v.value with
    | .str s =>
      let m := s.toUTF8.toList
      (some m, v.withMemoryCache (some m))
    | _ => (none, v)

/-- `typeof v.value` for the four tags of `IRuntimeVariableType`. -/
def RTValue.typeofStr : RTValue → String
  | .num _ => "number"
  | .bool _ => "boolean"
  | .str _ => "string"
  | .arr _ => "object"

/-- `name.indexOf('lazy') >= 0`: does the pattern occur as a contiguous
substring of the string? -/
def strContainsSub (s pat : String) : Bool :=
  go pat.toList s.toList
where
  /-- Checks occurrence at each suffix. -/
  go (pat : List Char) : List Char → Bool
    | [] => pat.isEmpty
    | c :: rest => List.isPrefixOf pat (c :: rest) || go pat rest

/-! ## Protocol messages

The wire objects the adapter builds: responses (`class Response extends
Message`), events (built as object literals), and the structured error
message attached under `body.error`. Optional JavaScript properties are
`Option` fields defaulting to `none`. -/

/-- `DebugProtocol.Message` as built by `sendErrorResponse`: `id`,
`format`, optional `variables` (spelled `errVariables` because `variables`
is a reserved word in Lean), `showUser`, `sendTelemetry`. -/
structure ErrorMessage where
  id : Int
  format : String
  errVariables : Option (List (String × String)) := none
  showUser : Option Bool := none
  sendTelemetry : Option Bool := none

/-- The capability flags assigned on `response.body` by
`initializeRequest` (all the fields it sets, with their source order). -/
structure Capabilities where
  supportsConditionalBreakpoints : Bool
  supportsHitConditionalBreakpoints : Bool
  supportsFunctionBreakpoints : Bool
  supportsConfigurationDoneRequest : Bool
  supportsEvaluateForHovers : Bool
  supportsStepBack : Bool
  supportsSetVariable : Bool
  supportsRestartFrame : Bool
  supportsStepInTargetsRequest : Bool
  supportsGotoTargetsRequest : Bool
  supportsCompletionsRequest : Bool
  supportsRestartRequest : Bool
  supportsExceptionOptions : Bool
  supportsValueFormattingOptions : Bool
  supportsExceptionInfoRequest : Bool
  supportTerminateDebuggee : Bool
  supportsDelayedStackTraceLoading : Bool
  supportsLoadedSourcesRequest : Bool
  supportsLogPoints : Bool
  supportsTerminateThreadsRequest : Bool
  supportsSetExpression : Bool
  supportsTerminateRequest : Bool
  supportsDataBreakpoints : Bool
  supportsReadMemoryRequest : Bool
  supportsDisassembleRequest : Bool
  supportsCancelRequest : Bool
  supportsBreakpointLocationsRequest : Bool
  supportsClipboardContext : Bool
  supportsSteppingGranularity : Bool
  supportsInstructionBreakpoints : Bool
  supportsExceptionFilterOptions : Bool

/-- The capability values `initializeRequest` assigns: everything `false`
except `supportsConfigurationDoneRequest`. -/
def defaultCapabilities : Capabilities :=
  { supportsConditionalBreakpoints := false
    supportsHitConditionalBreakpoints := false
    supportsFunctionBreakpoints := false
    supportsConfigurationDoneRequest := true
    supportsEvaluateForHovers := false
    supportsStepBack := false
    supportsSetVariable := false
    supportsRestartFrame := false
    supportsStepInTargetsRequest := false
    supportsGotoTargetsRequest := false
    supportsCompletionsRequest := false
    supportsRestartRequest := false
    supportsExceptionOptions := false
    supportsValueFormattingOptions := false
    supportsExceptionInfoRequest := false
    supportTerminateDebuggee := false
    supportsDelayedStackTraceLoading := false
    supportsLoadedSourcesRequest := false
    supportsLogPoints := false
    supportsTerminateThreadsRequest := false
    supportsSetExpression := false
    supportsTerminateRequest := false
    supportsDataBreakpoints := false
    supportsReadMemoryRequest := false
    supportsDisassembleRequest := false
    supportsCancelRequest := false
    supportsBreakpointLocationsRequest := false
    supportsClipboardContext := false
    supportsSteppingGranularity := false
    supportsInstructionBreakpoints := false
    supportsExceptionFilterOptions := false }

/-- `DebugProtocol.Variable` as built by `convertFromRuntime` (the fields
it writes; `__vscodeVariableMenuContext` is the untyped extra property,
`presentationHintLazy` stands for `presentationHint = { lazy: true }`). -/
structure DAPVariable where
  name : String
  value : String
  type : String
  variablesReference : Int
  evaluateName : String
  presentationHintLazy : Option Bool := none
  memoryReference : Option String := none
  menuContext : Option String := none
deriving Repr

/-- A protocol stack frame as built by `stackTraceRequest` (`StackFrame`
from the library plus the fields the handler assigns). -/
structure DAPStackFrame where
  id : Int
  name : String
  sourceName : String
  sourcePath : String
  line : Int
  column : Option Int := none
  instructionPointerReference : Option String := none
deriving Repr

/-- The `response.body` object: created empty and extended field by field
by the handlers (`error` by `sendErrorResponse`, the capability flags by
`initializeRequest`, `variables` / `stackFrames` / `totalFrames` by their
handlers; `variables` is spelled `bodyVariables` because `variables` is a
reserved word in Lean). -/
structure ResponseBody where
  error : Option ErrorMessage := none
  capabilities : Option Capabilities := none
  bodyVariables : Option (List DAPVariable) := none
  stackFrames : Option (List DAPStackFrame) := none
  totalFrames : Option Int := none

/-- The arguments object of an inbound request; each handler reads the
properties it expects, absent ones being `undefined` (`none`). A property
holding a value of the wrong JavaScript type fails the handler's `typeof`
test exactly as an absent one does, so it is also modelled as `none`. -/
structure RequestArguments where
  linesStartAt1 : Option Bool := none
  columnsStartAt1 : Option Bool := none
  pathFormat : Option String := none
  variablesReference : Option Int := none
  startFrame : Option Int := none
  levels : Option Int := none

/-- An inbound `DebugProtocol.Request`. -/
structure Request where
  seq : Int
  command : String
  arguments : RequestArguments := {}

/-- An outbound response object. `new Response(request)` (the only form
`dispatchRequest` uses, with no `message`) sets `seq = 0` and
`type = 'response'` through the `Message` constructor, `request_seq` and
`command` from the request, and `success = true`. -/
structure ResponseMsg where
  seq : Int
  type : String
  request_seq : Int
  success : Bool
  command : String
  message : Option String := none
  body : Option ResponseBody := none

/-- `new Response(request)` as called by `dispatchRequest`. -/
def ResponseMsg.ofRequest (req : Request) : ResponseMsg :=
  { seq := 0
    type := "response"
    request_seq := req.seq
    success := true
    command := req.command }

/-- An outbound event object (the `initialized` event is the literal
`{ seq: 0, type: "event", event: "initialized" }`). -/
structure EventMsg where
  seq : Int
  type : String
  event : String
deriving Repr, DecidableEq

/-- A message handed to `_send` and fired on the emission channel. -/
inductive OutMessage : Type where
  | response (r : ResponseMsg)
  | event (e : EventMsg)

/-- The `seq` field of an outbound message. -/
def OutMessage.seqOf : OutMessage → Int
  | .response r => r.seq
  | .event e => e.seq

/-- Is the outbound message a response? -/
def OutMessage.isResponse : OutMessage → Bool
  | .response _ => true
  | .event _ => false

/-- Is the outbound message the `initialized` event? -/
def OutMessage.isInitializedEvent : OutMessage → Bool
  | .event e => e.event = "initialized"
  | .response _ => false

/-- Observable side effects of a dispatch turn: messages fired on the
emission channel during the turn (`emitted`, in order), messages whose
firing was deferred with `setImmediate` (`deferred`, run in order after
the turn), and `console.error` log lines. -/
structure Effects where
  emitted : List OutMessage := []
  deferred : List OutMessage := []
  logs : List String := []

/-- The order in which the transport observes the messages: synchronous
emissions of the turn first, then the deferred ones. -/
def Effects.transportOrder (fx : Effects) : List OutMessage :=
  fx.emitted ++ fx.deferred

/-- Appends a `console.error` line. -/
def Effects.log (fx : Effects) (s : String) : Effects :=
  { fx with logs := fx.logs ++ [s] }

/-! ## Adapter state (`DebugProtocolAdapter` fields) -/

/-- The value type of `_variableHandles`:
`Handles<'locals' | 'globals' | RuntimeVariable>`. -/
inductive HandleValue : Type where
  | locals
  | globals
  | rtvar (v : RuntimeVariable)

/-- Every stored `HandleValue` is truthy in JavaScript: the sentinels are
the nonempty strings `'locals'` / `'globals'` and a `RuntimeVariable` is
an object. -/
def HandleValue.truthy : HandleValue → Bool :=
  fun _ => true

/-- The mutable fields of `DebugProtocolAdapter` read or written by the
operations under study (`_pendingRequests` is untouched by them). -/
structure AdapterState where
  clientLinesStartAt1 : Bool
  clientColumnsStartAt1 : Bool
  debuggerLinesStartAt1 : Bool
  debuggerColumnsStartAt1 : Bool
  addressesInHex : Bool
  valuesInHex : Bool
  variableHandles : Handles HandleValue

/-- The `DebugProtocolAdapter` constructor: client origins start `true`,
debugger origins take the obsolete flag when it is a boolean and `false`
otherwise; `_addressesInHex = true`, `_valuesInHex = false`, and a fresh
default `Handles` table. -/
def AdapterState.init (obsoleteDebuggerLinesAndColumnsStartAt1 : Option Bool) :
    AdapterState :=
  let linesAndColumnsStartAt1 := obsoleteDebuggerLinesAndColumnsStartAt1.getD false
  { clientLinesStartAt1 := true
    clientColumnsStartAt1 := true
    debuggerLinesStartAt1 := linesAndColumnsStartAt1
    debuggerColumnsStartAt1 := linesAndColumnsStartAt1
    addressesInHex := true
    valuesInHex := false
    variableHandles := Handles.make HandleValue none }

/-- `this._variableHandles.create(value)` on the adapter state. -/
def AdapterState.createHandle (st : AdapterState) (v : HandleValue) :
    Int × AdapterState :=
  let p := st.variableHandles.create v
  (p.1, { st with variableHandles := p.2 })

/-! ## Emission (`_send`, `sendResponse`, `sendErrorResponse`, `sendEvent`) -/

/-- `_send(typ, message)`: assigns `message.type = typ` and fires the
message on the emission channel. Note that it does not touch
`message.seq`. -/
def sendRaw (fx : Effects) (m : OutMessage) : Effects :=
  { fx with emitted := fx.emitted ++ [m] }

/-- `sendResponse(response)`: when `response.seq > 0` it only logs the
double-response programming error; otherwise it stamps
`type = 'response'` and hands the response to `_send`. Returns the
(possibly mutated) response object together with the effects. -/
def sendResponse (response : ResponseMsg) (fx : Effects) :
    ResponseMsg × Effects :=
  if response.seq > 0 then
    (response,
      fx.log ("attempt to send more than one response for command " ++ response.command))
  else
    let response := { response with type := "response" }
    (response, sendRaw fx (.response response))

/-- `ErrorDestination.User` from `@vscode/debugadapter` (bit flag). -/
def errorDestinationUser : Nat := 1

/-- `ErrorDestination.Telemetry` from `@vscode/debugadapter` (bit flag). -/
def errorDestinationTelemetry : Nat := 2

/-- The `codeOrMessage` union parameter of `sendErrorResponse`. -/
inductive CodeOrMessage : Type where
  | code (c : Int)
  | msg (m : ErrorMessage)

/-- `sendErrorResponse(response, codeOrMessage, format?, variables?, dest)`:
builds the structured error message (setting `showUser` / `sendTelemetry`
from the destination bits when given a numeric code), marks the response
unsuccessful, sets `response.message` through `formatPII`, attaches the
error under `body.error` (creating the body when absent), and completes
through `sendResponse`. -/
def sendErrorResponse (response : ResponseMsg) (codeOrMessage : CodeOrMessage)
    (format : Option String) (vars : Option (List (String × String)))
    (dest : Nat) (fx : Effects) : ResponseMsg × Effects :=
  let msg : ErrorMessage :=
    match codeOrMessage with
    | .code c =>
      { id := c
        format := format.getD ""
        errVariables := vars
        showUser := if dest &&& errorDestinationUser ≠ 0 then some true else none
        sendTelemetry := if dest &&& errorDestinationTelemetry ≠ 0 then some true else none }
    | .msg m => m
  let response := { response with
    success := false
    message := some (formatPII msg.format true (msg.errVariables.getD []))
    body := some { response.body.getD {} with error := some msg } }
  sendResponse response fx

/-- `sendEvent(event)`: defers the `_send('event', event)` call with
`setImmediate`, so the event reaches the transport only after the current
turn. -/
def sendEvent (event : EventMsg) (fx : Effects) : Effects :=
  { fx with deferred := fx.deferred ++ [.event { event with type := "event" }] }

/-! ## Coordinate conversion and number formatting helpers -/

/-- `convertDebuggerLineToClient(line)`. -/
def convertDebuggerLineToClient (st : AdapterState) (line : Int) : Int :=
  if st.debuggerLinesStartAt1 then
    if st.clientLinesStartAt1 then line else line - 1
  else
    if st.clientLinesStartAt1 then line + 1 else line

/-- `convertDebuggerColumnToClient(column)`. -/
def convertDebuggerColumnToClient (st : AdapterState) (column : Int) : Int :=
  if st.debuggerColumnsStartAt1 then
    if st.clientColumnsStartAt1 then column else column - 1
  else
    if st.clientColumnsStartAt1 then column + 1 else column

/-- Modelled from the spec: the client-to-engine direction
(`toEngine(clientValue)`) of the CoordinateTranslator for lines. The
repository ships only the engine-to-client direction; per spec section
4.2 the conversion "applies a plus-or-minus-1 shift only when the two
conventions disagree; identity when they agree". -/
def convertClientLineToDebugger (st : AdapterState) (line : Int) : Int :=
  if st.debuggerLinesStartAt1 then
    if st.clientLinesStartAt1 then line else line + 1
  else
    if st.clientLinesStartAt1 then line - 1 else line

/-- Modelled from the spec: the client-to-engine direction of the
CoordinateTranslator for columns (see `convertClientLineToDebugger`). -/
def convertClientColumnToDebugger (st : AdapterState) (column : Int) : Int :=
  if st.debuggerColumnsStartAt1 then
    if st.clientColumnsStartAt1 then column else column + 1
  else
    if st.clientColumnsStartAt1 then column - 1 else column

/-- `x.toString(16).padStart(8, '0')`: left-pads with zeros to 8 chars. -/
def padStart8Zeros (s : String) : String :=
  if s.length < 8 then String.mk (List.replicate (8 - s.length) '0') ++ s else s

/-- `formatAddress(x)`: `'mem' + ('0x' + hex padded to 8 | decimal)`. -/
def formatAddress (st : AdapterState) (x : Int) : String :=
  "mem" ++
    (if st.addressesInHex then "0x" ++ padStart8Zeros (ratToStringBase 16 x)
     else ratToStringBase 10 x)

/-- `formatNumber(x)`: hexadecimal with a `0x` prefix when `_valuesInHex`,
else decimal. -/
def formatNumber (st : AdapterState) (x : Rat) : String :=
  if st.valuesInHex then "0x" ++ ratToStringBase 16 x else ratToStringBase 10 x

/-! ## Variable formatting (`convertFromRuntime`) -/

/-- `v.reference ??= <mint>`: when the reference is already assigned it is
reused and the right-hand side is not evaluated; otherwise `mint` runs,
the resulting handle is stored into the variable, and is returned. -/
def ensureReference (st : AdapterState) (v : RuntimeVariable)
    (mint : AdapterState → Int × AdapterState) :
    Int × RuntimeVariable × AdapterState :=
  match v.reference with
  | some r => (r, v, st)
  | none =>
    let p := mint st
    (p.1, v.withReference (some p.1), p.2)

/-- `convertFromRuntime(v)`: builds the protocol variable, lazily minting
handles, and mutating `v` through its `reference` field and `memory`
getter. Returns the protocol variable, the updated runtime variable and
the updated adapter state. -/
def convertFromRuntime (st : AdapterState) (v : RuntimeVariable) :
    DAPVariable × RuntimeVariable × AdapterState :=
  let dapVariable : DAPVariable :=
    { name := v.name
      value := "???"
      type := v.value.typeofStr
      variablesReference := 0
      evaluateName := "$" ++ v.name }
  let step1 : DAPVariable × RuntimeVariable × AdapterState :=
    if strContainsSub v.name "lazy" then
      -- a "lazy" variable needs an additional click to retrieve its value
      let p := ensureReference st v (fun st =>
        st.createHandle (.rtvar (.make "" (.arr [.make "" v.value]))))
      ({ dapVariable with
          value := "lazy var"
          variablesReference := p.1
          presentationHintLazy := some true },
        p.2.1, p.2.2)
    else
      match v.value with
      | .arr _ =>
        let p := ensureReference st v (fun st => st.createHandle (.rtvar v))
        ({ dapVariable with value := "Object", variablesReference := p.1 },
          p.2.1, p.2.2)
      | .num q =>
        if (jsRound q : Rat) = q then
          ({ dapVariable with
              value := formatNumber st q
              menuContext := some "simple"
              type := "integer" }, v, st)
        else
          ({ dapVariable with value := ratToStringBase 10 q, type := "float" }, v, st)
      | .str s =>
        ({ dapVariable with value := "\"" ++ s ++ "\"" }, v, st)
      | .bool b =>
        ({ dapVariable with value := if b then "true" else "false" }, v, st)
  let dapVariable := step1.1
  let v := step1.2.1
  let st := step1.2.2
  match (v.memoryGet).1, (v.memoryGet).2 with
  | some _, v =>
    let p := ensureReference st v (fun st => st.createHandle (.rtvar v))
    ({ dapVariable with memoryReference := some (ratToStringBase 10 p.1) },
      p.2.1, p.2.2)
  | none, v => (dapVariable, v, st)

/-- `vs.map(v => this.convertFromRuntime(v))`: maps the formatter over a
list, threading the adapter state (the in-place updates of each mapped
variable are not observed further by the caller). -/
def convertFromRuntimeList (st : AdapterState) :
    List RuntimeVariable → List DAPVariable × AdapterState
  | [] => ([], st)
  | v :: vs =>
    let p := convertFromRuntime st v
    let q := convertFromRuntimeList p.2.2 vs
    (p.1 :: q.1, q.2)

/-! ## Request handlers and dispatch -/

/-- `IRuntimeStackFrame` from the adapter source. -/
structure IRuntimeStackFrame where
  index : Int
  name : String
  file : String
  line : Int
  column : Option Int := none
  instruction : Option Int := none

/-- `IRuntimeStack` from the adapter source. -/
structure IRuntimeStack where
  count : Int
  frames : List IRuntimeStackFrame

/-- The base-class `stack(startFrame, endFrame)`: `{count: 0, frames: []}`. -/
def baseStack (_startFrame _endFrame : Int) : IRuntimeStack :=
  { count := 0, frames := [] }

/-- The base-class `getLocalVariables()`: an empty list. -/
def baseGetLocalVariables : List RuntimeVariable := []

/-- The base-class `getGlobalVariables()`: an empty list. -/
def baseGetGlobalVariables : List RuntimeVariable := []

/-- `basename` from `path-browserify`: the last `/`-separated segment. -/
def jsBasename (path : String) : String :=
  (path.splitOn "/").getLastD path

/-- The body of the mapping in `stackTraceRequest`: `new StackFrame(...)`
with the converted line, then the optional converted column, then the
formatted instruction address appended to the name. -/
def stackFrameToClient (st : AdapterState) (f : IRuntimeStackFrame) :
    DAPStackFrame :=
  let sf : DAPStackFrame :=
    { id := f.index
      name := f.name
      sourceName := jsBasename f.file
      sourcePath := f.file
      line := convertDebuggerLineToClient st f.line }
  let sf :=
    match f.column with
    | some c => { sf with column := some (convertDebuggerColumnToClient st c) }
    | none => sf
  match f.instruction with
  | some instr =>
    let address := formatAddress st instr
    { sf with
        name := f.name ++ " " ++ address
        instructionPointerReference := some address }
  | none => sf

/-- `initializeRequest(response, args)`: returns without sending anything
when the response has no body object; otherwise assigns every capability
flag on the body, emits the `initialized` event (deferred), and sends the
response. -/
def initializeRequest (response : ResponseMsg) (fx : Effects) :
    ResponseMsg × Effects :=
  match response.body with
  | none => (response, fx)
  | some body =>
    let response :=
      { response with body := some { body with capabilities := some defaultCapabilities } }
    let fx := sendEvent { seq := 0, type := "event", event := "initialized" } fx
    sendResponse response fx

/-- `stackTraceRequest(response, args)` of the adapter base class. -/
def stackTraceRequest (st : AdapterState) (response : ResponseMsg)
    (args : RequestArguments) (fx : Effects) : ResponseMsg × Effects :=
  let startFrame := args.startFrame.getD 0
  let maxLevels := args.levels.getD 1000
  let endFrame := startFrame + maxLevels
  let stk := baseStack startFrame endFrame
  let response := { response with
    body := some
      { stackFrames := some (stk.frames.map (stackFrameToClient st))
        totalFrames := some stk.count } }
  sendResponse response fx

/-- `variablesRequest(response, args)`: resolves `variablesReference`
through the handle table (a non-number key misses), picks the child list
per the resolved value, formats it, and sends the response. -/
def variablesRequest (st : AdapterState) (response : ResponseMsg)
    (args : RequestArguments) (fx : Effects) :
    ResponseMsg × AdapterState × Effects :=
  let vOpt : Option HandleValue :=
    match args.variablesReference with
    | some n => st.variableHandles.get HandleValue.truthy n none
    | none => none
  let vs : List RuntimeVariable :=
    match vOpt with
    | some .locals => baseGetLocalVariables
    | some .globals => baseGetGlobalVariables
    | some (.rtvar rv) =>
      match rv.value with
      | .arr elems => elems
      | _ => []
    | none => []
  let p := convertFromRuntimeList st vs
  let response := { response with body := some { bodyVariables := some p.1 } }
  let q := sendResponse response fx
  (q.1, p.2, q.2)

/-- The commands of the dispatch chain whose handlers in
`DebugProtocolAdapter` consist of a single `sendResponse(response)` call
(every chain entry except `initialize`, `stackTrace` and `variables`). -/
def defaultHandledCommands : List String :=
  ["launch", "attach", "disconnect", "terminate", "restart",
   "setBreakpoints", "setFunctionBreakpoints", "setExceptionBreakpoints",
   "configurationDone", "continue", "next", "stepIn", "stepOut",
   "stepBack", "reverseContinue", "restartFrame", "goto", "pause",
   "scopes", "setVariable", "setExpression", "source", "threads",
   "terminateThreads", "evaluate", "stepInTargets", "gotoTargets",
   "completions", "exceptionInfo", "loadedSources", "dataBreakpointInfo",
   "setDataBreakpoints", "readMemory", "writeMemory", "disassemble",
   "cancel", "breakpointLocations", "setInstructionBreakpoints"]

/-- Every command of the `dispatchRequest` chain. -/
def knownCommands : List String :=
  "initialize" :: "stackTrace" :: "variables" :: defaultHandledCommands

/-- Result of one inbound-request dispatch turn. -/
structure DispatchResult where
  state : AdapterState
  effects : Effects

/-- `dispatchRequest(request)`: builds `new Response(request)` and walks
the command chain. The `initialize` branch first stores the boolean
`linesStartAt1` / `columnsStartAt1` arguments into the client origin
flags, then validates `pathFormat`, sending the telemetry-destined error
2018 for any value other than `'path'` and otherwise creating the body
object and delegating to `initializeRequest`. The final `else` only logs
the unknown command. -/
def dispatchRequest (st : AdapterState) (req : Request) : DispatchResult :=
  let response := ResponseMsg.ofRequest req
  if req.command = "initialize" then
    let args := req.arguments
    let st :=
      match args.linesStartAt1 with
      | some b => { st with clientLinesStartAt1 := b }
      | none => st
    let st :=
      match args.columnsStartAt1 with
      | some b => { st with clientColumnsStartAt1 := b }
      | none => st
    if args.pathFormat ≠ some "path" then
      let p := sendErrorResponse response (.code 2018)
        (some "debug adapter only supports native paths") none
        errorDestinationTelemetry {}
      ⟨st, p.2⟩
    else
      let response := { response with body := some {} }
      let p := initializeRequest response {}
      ⟨st, p.2⟩
  else if req.command = "stackTrace" then
    let p := stackTraceRequest st response req.arguments {}
    ⟨st, p.2⟩
  else if req.command = "variables" then
    let p := variablesRequest st response req.arguments {}
    ⟨p.2.1, p.2.2⟩
  else if defaultHandledCommands.contains req.command then
    let p := sendResponse response {}
    ⟨st, p.2⟩
  else
    ⟨st, Effects.log {} ("unknown request '" ++ req.command ++ "'")⟩

/-- Number of responses among a list of outbound messages. -/
def countResponses (l : List OutMessage) : Nat :=
  (l.filter OutMessage.isResponse).length

/-- Is some `initialized` event delivered strictly before the first
response in the given transport order? -/
def initializedBeforeResponse (l : List OutMessage) : Bool :=
  ((l.takeWhile (fun m => !m.isResponse)).filter OutMessage.isInitializedEvent).length > 0

/-! ## Concrete protocol objects used by the theorems -/

/-- A plain request with a handler that only calls `sendResponse`. -/
def pauseRequest : Request :=
  { seq := 7, command := "pause" }

/-- The specification's initialize scenario request: `seq` 1,
`pathFormat` `path`, both origin flags `true`. -/
def initializeScenarioRequest : Request :=
  { seq := 1
    command := "initialize"
    arguments :=
      { linesStartAt1 := some true
        columnsStartAt1 := some true
        pathFormat := some "path" } }

/-- An initialize request with the unsupported `pathFormat` value
`uri`. -/
def uriPathFormatRequest : Request :=
  { seq := 3
    command := "initialize"
    arguments :=
      { linesStartAt1 := some false
        columnsStartAt1 := some true
        pathFormat := some "uri" } }

/-- The `initialized` event object the adapter emits. -/
def initializedEventMsg : EventMsg :=
  { seq := 0, type := "event", event := "initialized" }

/-- The successful initialize response the adapter emits: `seq` still 0,
all capability flags set. -/
def initializeSuccessResponse (request_seq : Int) : ResponseMsg :=
  { seq := 0
    type := "response"
    request_seq := request_seq
    success := true
    command := "initialize"
    message := none
    body := some { capabilities := some defaultCapabilities } }

/-- The structured error message produced for an unsupported path
format: code 2018, telemetry destination only. -/
def nativePathsError : ErrorMessage :=
  { id := 2018
    format := "debug adapter only supports native paths"
    errVariables := none
    showUser := none
    sendTelemetry := some true }

/-- The unsuccessful initialize response produced for an unsupported
path format. -/
def invalidPathFormatResponse (request_seq : Int) : ResponseMsg :=
  { seq := 0
    type := "response"
    request_seq := request_seq
    success := false
    command := "initialize"
    message := some "debug adapter only supports native paths"
    body := some { error := some nativePathsError } }

/-- A request whose command is not in the dispatch chain. -/
def unknownCommandRequest : Request :=
  { seq := 9, command := "frobnicate" }

/-- A known-command request sent after the unknown one. -/
def followUpRequest : Request :=
  { seq := 10, command := "pause" }

/-- The rational number 7/2, built directly from numerator and
denominator (a sample non-integral JavaScript number). -/
def sevenHalves : Rat :=
  ⟨7, 2, by decide, by decide⟩

/-! ## Helper lemmas -/

/-- After `reset`, the handle map is empty, so `get` returns the
provided default for every key. -/
theorem Handles.reset_get {T : Type} (h : Handles T) (truthy : T → Bool)
    (x : Int) (d : Option T) : h.reset.get truthy x d = d := by
  simp [Handles.reset, Handles.get, List.lookup]

/-- Every handle returned by a `create` sequence is at least the
starting `_nextHandle`. -/
theorem Handles.createMany_ge {T : Type} (vs : List T) (h : Handles T) :
    ∀ x ∈ (h.createMany vs).1, h.nextHandle ≤ x := by
  induction vs generalizing h with
  | nil => simp [Handles.createMany]
  | cons v vs ih =>
    simp only [Handles.createMany, Handles.create, List.mem_cons]
    rintro x (rfl | hx)
    · exact le_refl _
    · have := ih
        { h with
          nextHandle := h.nextHandle + 1
          handleMap := (h.nextHandle, v) :: h.handleMap } x hx
      simp at this
      omega

/-- A `create` sequence never returns the same handle twice. -/
theorem Handles.createMany_nodup {T : Type} (vs : List T) (h : Handles T) :
    (h.createMany vs).1.Nodup := by
  induction vs generalizing h with
  | nil => simp [Handles.createMany]
  | cons v vs ih =>
    simp only [Handles.createMany, Handles.create, List.nodup_cons]
    refine ⟨fun hmem => ?_, ih _⟩
    have := Handles.createMany_ge vs
      { h with
        nextHandle := h.nextHandle + 1
        handleMap := (h.nextHandle, v) :: h.handleMap } h.nextHandle hmem
    simp at this

/-- `create` never changes the private `startHandle` field. -/
theorem Handles.createMany_startHandle {T : Type} (vs : List T) (h : Handles T) :
    (h.createMany vs).2.startHandle = h.startHandle := by
  induction vs generalizing h with
  | nil => rfl
  | cons v vs ih => simp [Handles.createMany, Handles.create, ih]

/-- A JavaScript number passing the `Math.round(x) === x` test has the
rounded value as numerator and denominator 1. -/
theorem integral_num_den (q : Rat) (h : (jsRound q : Rat) = q) :
    q.num = jsRound q ∧ q.den = 1 := by
  refine ⟨?_, ?_⟩
  · conv_lhs => rw [← h]
    simp
  · rw [← h]; simp

/-- `toString` of an integral JavaScript number is the integer
rendering of its rounded value. -/
theorem integral_ratToStringBase (base : Nat) (q : Rat)
    (h : (jsRound q : Rat) = q) :
    ratToStringBase base q = intToBaseString base (jsRound q) := by
  obtain ⟨hn, hd⟩ := integral_num_den q h
  rw [ratToStringBase, if_pos hd, hn]

/-- Dispatching any request whose command is in the dispatch chain
emits exactly one response on the transport. -/
theorem known_one_response (st : AdapterState) (req : Request)
    (h : knownCommands.contains req.command = true) :
    countResponses (dispatchRequest st req).effects.transportOrder = 1 := by
  obtain ⟨s, cmd, args⟩ := req
  simp only at h ⊢
  by_cases hi : cmd = "initialize"
  · subst hi
    obtain ⟨l1, c1, pf, vr, sf, lv⟩ := args
    by_cases hp : pf = some "path"
    · subst hp
      cases l1 <;> cases c1 <;>
        simp [dispatchRequest, initializeRequest, sendEvent, sendResponse, sendRaw,
          ResponseMsg.ofRequest, countResponses, Effects.transportOrder,
          OutMessage.isResponse]
    · cases l1 <;> cases c1 <;>
        simp [dispatchRequest, hp, sendErrorResponse, sendResponse, sendRaw,
          ResponseMsg.ofRequest, countResponses, Effects.transportOrder,
          OutMessage.isResponse]
  · by_cases hs : cmd = "stackTrace"
    · subst hs
      simp [dispatchRequest, stackTraceRequest, sendResponse, sendRaw,
        ResponseMsg.ofRequest, countResponses, Effects.transportOrder,
        OutMessage.isResponse]
    · by_cases hv : cmd = "variables"
      · subst hv
        simp [dispatchRequest, variablesRequest, sendResponse, sendRaw,
          ResponseMsg.ofRequest, countResponses, Effects.transportOrder,
          OutMessage.isResponse]
      · have hd : cmd ∈ defaultHandledCommands := by
          simp [knownCommands, hi, hs, hv] at h
          simpa using h
        simp [dispatchRequest, hi, hs, hv, hd, sendResponse, sendRaw,
          ResponseMsg.ofRequest, countResponses, Effects.transportOrder,
          OutMessage.isResponse]

/-! ## Claim theorems -/

/-- C1: the claim says a second `sendResponse` call for the same request
object is detected through the response's `seq` having been assigned on
the first send, logged, and not emitted again. In the code `_send` never
assigns `seq`, so the response still carries `seq = 0` after the first
send, the guard cannot fire, and a second call emits a second response
with no log: calling `sendResponse` twice on the response built for
`pauseRequest` fires two response messages, logs nothing, and the
response's `seq` is still 0 after the first send. -/
theorem c1_double_response_emitted :
    (sendResponse (sendResponse (ResponseMsg.ofRequest pauseRequest) {}).1
        (sendResponse (ResponseMsg.ofRequest pauseRequest) {}).2).2.emitted.map
      OutMessage.isResponse = [true, true] ∧
    (sendResponse (sendResponse (ResponseMsg.ofRequest pauseRequest) {}).1
        (sendResponse (ResponseMsg.ofRequest pauseRequest) {}).2).2.logs = [] ∧
    (sendResponse (ResponseMsg.ofRequest pauseRequest) {}).1.seq = 0 :=
  ⟨rfl, rfl, rfl⟩

/-- C2: the claim says the sender assigns `seq` monotonically and
uniquely per direction. `_send` never assigns `seq`, so the two distinct
outbound messages of one successful initialize dispatch (a response and
the `initialized` event) both reach the transport carrying `seq = 0`. -/
theorem c2_outbound_seq_not_unique :
    (dispatchRequest (AdapterState.init none) initializeScenarioRequest).effects.transportOrder.map
      OutMessage.seqOf = [0, 0] ∧
    (dispatchRequest (AdapterState.init none) initializeScenarioRequest).effects.transportOrder.map
      OutMessage.isResponse = [true, false] :=
  ⟨rfl, rfl⟩

/-- C3 counterexample: the claim says `reset()` restarts numbering at
the configured base. For a table constructed with base 5, the first
`create` after `reset()` returns 1000 (the fixed private default), not
the configured base 5. -/
theorem c3_reset_ignores_configured_base :
    (((Handles.make Nat (some 5)).create 0).2.reset.create 0).1 = 1000 ∧
    ((((Handles.make Nat (some 5)).create 0).2.reset.create 0).1 = 5 → False) :=
  ⟨rfl, by decide⟩

/-- C3 amended: for every Handles table constructed with any start base
and every sequence of create/reset/create calls, `create` never returns
the same handle twice within one generation (between resets); `reset()`
restarts numbering at the fixed default base 1000 regardless of the
constructor-configured start; and after `reset`, `get` on any handle
(in particular any handle created before the reset) returns the
provided default. -/
theorem c3_handles_lifecycle_amended {T : Type} (base : Option Int)
    (vs ws : List T) (truthy : T → Bool) (x : Int) (d : Option T) :
    ((Handles.make T base).createMany vs).1.Nodup ∧
    ((Handles.make T base).createMany vs).2.reset.nextHandle = 1000 ∧
    ((Handles.make T base).createMany vs).2.reset.get truthy x d = d ∧
    (((Handles.make T base).createMany vs).2.reset.createMany ws).1.Nodup :=
  ⟨Handles.createMany_nodup vs _,
   by rw [Handles.reset]; rw [Handles.createMany_startHandle]; rfl,
   Handles.reset_get _ truthy x d,
   Handles.createMany_nodup ws _⟩

/-- Witness for C3 amended at a table with configured base 5, two
creates, a reset, and one more create. -/
theorem c3_handles_lifecycle_amended_witness :
    ((Handles.make Nat (some 5)).createMany [21, 22]).1.Nodup ∧
    ((Handles.make Nat (some 5)).createMany [21, 22]).2.reset.nextHandle = 1000 ∧
    ((Handles.make Nat (some 5)).createMany [21, 22]).2.reset.get
      (fun _ => true) 5 (some 42) = some 42 ∧
    (((Handles.make Nat (some 5)).createMany [21, 22]).2.reset.createMany [23]).1.Nodup :=
  c3_handles_lifecycle_amended (some 5) [21, 22] [23] (fun _ => true) 5 (some 42)

/-- C4 counterexample: the claim says the `initialized` event is
delivered to the transport before (never after) the successful response.
On the scenario initialize request the transport order contains the
`initialized` event and exactly one response, but no `initialized` event
occurs before the response: the event is delivered after it. -/
theorem c4_initialized_event_not_before_response :
    initializedBeforeResponse
      (dispatchRequest (AdapterState.init none) initializeScenarioRequest).effects.transportOrder = false ∧
    ((dispatchRequest (AdapterState.init none) initializeScenarioRequest).effects.transportOrder.filter
      OutMessage.isInitializedEvent).length = 1 ∧
    countResponses
      (dispatchRequest (AdapterState.init none) initializeScenarioRequest).effects.transportOrder = 1 :=
  ⟨rfl, rfl, rfl⟩

/-- C4 amended: for every adapter state and every initialize request
whose arguments have `pathFormat` equal to `path`, dispatch
synchronously emits exactly the successful response carrying
`request_seq` equal to the request's `seq` and every capability flag
present and boolean, and defers exactly the `initialized` event to the
next scheduling turn, so the transport observes the response first and
the `initialized` event after (never before) it. -/
theorem c4_initialize_scenario_amended (st : AdapterState) (req : Request)
    (hc : req.command = "initialize")
    (hp : req.arguments.pathFormat = some "path") :
    (dispatchRequest st req).effects.transportOrder =
      [OutMessage.response (initializeSuccessResponse req.seq),
       OutMessage.event initializedEventMsg] ∧
    (dispatchRequest st req).effects.emitted =
      [OutMessage.response (initializeSuccessResponse req.seq)] ∧
    (dispatchRequest st req).effects.deferred =
      [OutMessage.event initializedEventMsg] := by
  obtain ⟨s, cmd, args⟩ := req
  obtain ⟨l1, c1, pf, vr, sf, lv⟩ := args
  simp only at hc hp
  subst hc
  subst hp
  cases l1 <;> cases c1 <;>
    simp [dispatchRequest, initializeRequest, sendEvent, sendResponse, sendRaw,
      ResponseMsg.ofRequest, Effects.transportOrder, initializeSuccessResponse,
      initializedEventMsg]

/-- Witness for C4 amended at the scenario request (seq 1, both origin
flags `true`) and the freshly constructed adapter. -/
theorem c4_initialize_scenario_amended_witness :
    initializeScenarioRequest.command = "initialize" ∧
    initializeScenarioRequest.arguments.pathFormat = some "path" ∧
    (dispatchRequest (AdapterState.init none) initializeScenarioRequest).effects.transportOrder =
      [OutMessage.response (initializeSuccessResponse 1),
       OutMessage.event initializedEventMsg] :=
  ⟨rfl, rfl,
   (c4_initialize_scenario_amended (AdapterState.init none) initializeScenarioRequest
     rfl rfl).1⟩

/-- C5: for every adapter state and every initialize request whose
arguments have a `pathFormat` other than `path`, dispatch emits exactly
one unsuccessful response whose `body.error` is the structured message
with `sendTelemetry` set and no capability body, defers no event (in
particular no `initialized` event), and logs nothing. -/
theorem c5_invalid_path_format_error (st : AdapterState) (req : Request)
    (hc : req.command = "initialize")
    (hp : req.arguments.pathFormat ≠ some "path") :
    (dispatchRequest st req).effects.emitted =
      [OutMessage.response (invalidPathFormatResponse req.seq)] ∧
    (dispatchRequest st req).effects.deferred = [] ∧
    (dispatchRequest st req).effects.logs = [] := by
  obtain ⟨s, cmd, args⟩ := req
  obtain ⟨l1, c1, pf, vr, sf, lv⟩ := args
  simp only at hc hp
  subst hc
  cases l1 <;> cases c1 <;>
    simp [dispatchRequest, hp, sendErrorResponse, sendResponse, sendRaw,
      ResponseMsg.ofRequest, invalidPathFormatResponse, nativePathsError] <;>
    decide

/-- Witness for C5 at the `pathFormat = "uri"` request. -/
theorem c5_invalid_path_format_error_witness :
    uriPathFormatRequest.command = "initialize" ∧
    uriPathFormatRequest.arguments.pathFormat ≠ some "path" ∧
    (dispatchRequest (AdapterState.init none) uriPathFormatRequest).effects.emitted =
      [OutMessage.response (invalidPathFormatResponse 3)] ∧
    (dispatchRequest (AdapterState.init none) uriPathFormatRequest).effects.deferred = [] :=
  ⟨rfl, by decide,
   (c5_invalid_path_format_error (AdapterState.init none) uriPathFormatRequest rfl
     (by decide)).1,
   (c5_invalid_path_format_error (AdapterState.init none) uriPathFormatRequest rfl
     (by decide)).2.1⟩

/-- C6: for every adapter state (hence every one of the four
combinations of the client and debugger origin flags) and every line and
column, converting from client convention to engine convention and back
yields the original value, and the engine-to-client conversion is exact
integer arithmetic that adds 1 exactly when only the client is 1-based,
subtracts 1 exactly when only the debugger is 1-based, and is the
identity when the conventions agree. The client-to-engine direction is
not in the repository source and is modelled from the spec
(`convertClientLineToDebugger`, `convertClientColumnToDebugger`). -/
theorem c6_coordinate_roundtrip (st : AdapterState) (line column : Int) :
    convertDebuggerLineToClient st (convertClientLineToDebugger st line) = line ∧
    convertDebuggerColumnToClient st (convertClientColumnToDebugger st column) = column ∧
    convertDebuggerLineToClient st line =
      line + (if st.clientLinesStartAt1 && !st.debuggerLinesStartAt1 then 1 else 0)
           - (if st.debuggerLinesStartAt1 && !st.clientLinesStartAt1 then 1 else 0) ∧
    convertDebuggerColumnToClient st column =
      column + (if st.clientColumnsStartAt1 && !st.debuggerColumnsStartAt1 then 1 else 0)
             - (if st.debuggerColumnsStartAt1 && !st.clientColumnsStartAt1 then 1 else 0) := by
  obtain ⟨cl, cc, dl, dc, ah, vh, vhs⟩ := st
  refine ⟨?_, ?_, ?_, ?_⟩ <;>
    · simp only [convertDebuggerLineToClient, convertClientLineToDebugger,
        convertDebuggerColumnToClient, convertClientColumnToDebugger]
      cases cl <;> cases cc <;> cases dl <;> cases dc <;> simp

/-- Witness for C6 at the freshly constructed adapter (client 1-based,
debugger 0-based) on line 5 and column 7. -/
theorem c6_coordinate_roundtrip_witness :
    convertDebuggerLineToClient (AdapterState.init none)
      (convertClientLineToDebugger (AdapterState.init none) 5) = 5 ∧
    convertDebuggerColumnToClient (AdapterState.init none)
      (convertClientColumnToDebugger (AdapterState.init none) 7) = 7 :=
  ⟨(c6_coordinate_roundtrip (AdapterState.init none) 5 7).1,
   (c6_coordinate_roundtrip (AdapterState.init none) 5 7).2.1⟩

/-- C7: for every adapter state and every runtime variable whose name
does not contain the substring `lazy` (any reference and memory cache
state), the formatter renders an integer-valued number as the decimal
rendering of its rounded value (hexadecimal with a `0x` prefix when the
`_valuesInHex` flag is set) with type `integer`; a non-integer number as
its decimal string with type `float`; a string wrapped in literal quote
characters with no escaping; and a boolean as the literal word `true` or
`false`. -/
theorem c7_scalar_rendering (st : AdapterState) (nm : String) (r : Option Int)
    (m : Option (List UInt8)) (hn : strContainsSub nm "lazy" = false) :
    (∀ q : Rat, (jsRound q : Rat) = q →
      (convertFromRuntime st (.mk nm (.num q) r m)).1.value =
        (if st.valuesInHex then "0x" ++ intToBaseString 16 (jsRound q)
         else intToBaseString 10 (jsRound q)) ∧
      (convertFromRuntime st (.mk nm (.num q) r m)).1.type = "integer") ∧
    (∀ q : Rat, (jsRound q : Rat) ≠ q →
      (convertFromRuntime st (.mk nm (.num q) r m)).1.value = ratToStringBase 10 q ∧
      (convertFromRuntime st (.mk nm (.num q) r m)).1.type = "float") ∧
    (∀ s : String,
      (convertFromRuntime st (.mk nm (.str s) r m)).1.value = "\"" ++ s ++ "\"") ∧
    (∀ b : Bool,
      (convertFromRuntime st (.mk nm (.bool b) r m)).1.value =
        (if b then "true" else "false")) := by
  refine ⟨?_, ?_, ?_, ?_⟩
  · intro q hq
    cases m <;>
      simp [convertFromRuntime, hn, hq, RuntimeVariable.name, RuntimeVariable.value,
        RuntimeVariable.memoryCache, RuntimeVariable.memoryGet, ensureReference,
        RuntimeVariable.reference, RuntimeVariable.withReference, formatNumber,
        integral_ratToStringBase 16 q hq, integral_ratToStringBase 10 q hq,
        RTValue.typeofStr]
  · intro q hq
    cases m <;>
      simp [convertFromRuntime, hn, hq, RuntimeVariable.name, RuntimeVariable.value,
        RuntimeVariable.memoryCache, RuntimeVariable.memoryGet, ensureReference,
        RuntimeVariable.reference, RuntimeVariable.withReference,
        RTValue.typeofStr]
  · intro s
    cases m <;>
      simp [convertFromRuntime, hn, RuntimeVariable.name, RuntimeVariable.value,
        RuntimeVariable.memoryCache, RuntimeVariable.memoryGet, ensureReference,
        RuntimeVariable.reference, RuntimeVariable.withReference,
        RuntimeVariable.withMemoryCache, RTValue.typeofStr]
  · intro b
    cases m <;>
      simp [convertFromRuntime, hn, RuntimeVariable.name, RuntimeVariable.value,
        RuntimeVariable.memoryCache, RuntimeVariable.memoryGet, ensureReference,
        RuntimeVariable.reference, RuntimeVariable.withReference,
        RTValue.typeofStr]

/-- Witness for C7 at the integer-valued variable `local_1 = 2` in the
freshly constructed adapter. -/
theorem c7_scalar_rendering_witness :
    strContainsSub "local_1" "lazy" = false ∧
    (jsRound 2 : Rat) = (2 : Rat) ∧
    (convertFromRuntime (AdapterState.init none)
        (.mk "local_1" (.num 2) none none)).1.value =
      (if (AdapterState.init none).valuesInHex then "0x" ++ intToBaseString 16 (jsRound 2)
       else intToBaseString 10 (jsRound 2)) ∧
    (convertFromRuntime (AdapterState.init none)
        (.mk "local_1" (.num 2) none none)).1.type = "integer" ∧
    intToBaseString 10 (jsRound 2) = "2" :=
  ⟨by decide, by decide,
   ((c7_scalar_rendering (AdapterState.init none) "local_1" none none
     (by decide)).1 2 (by decide)).1,
   ((c7_scalar_rendering (AdapterState.init none) "local_1" none none
     (by decide)).1 2 (by decide)).2,
   by decide⟩

/-- C8: for every adapter state and every runtime variable, applying the
formatter twice to the same instance (whose `reference` field persists
through the first application) yields the same `variablesReference` both
times: an already assigned reference is reused and no second handle is
minted for the same variable. -/
theorem c8_reference_minting_idempotent (st : AdapterState) (v : RuntimeVariable) :
    (convertFromRuntime (convertFromRuntime st v).2.2 (convertFromRuntime st v).2.1).1.variablesReference =
      (convertFromRuntime st v).1.variablesReference := by
  obtain ⟨nm, val, r, m⟩ := v
  cases hl : strContainsSub nm "lazy"
  case false =>
    cases val with
    | num q =>
      by_cases hq : (jsRound q : Rat) = q <;> cases r <;> cases m <;>
        simp [convertFromRuntime, hl, hq, RuntimeVariable.name, RuntimeVariable.value,
          RuntimeVariable.reference, RuntimeVariable.memoryCache,
          RuntimeVariable.memoryGet, RuntimeVariable.withReference,
          RuntimeVariable.withMemoryCache, RuntimeVariable.make, ensureReference,
          RTValue.typeofStr, AdapterState.createHandle, Handles.create]
    | bool b =>
      cases r <;> cases m <;>
        simp [convertFromRuntime, hl, RuntimeVariable.name, RuntimeVariable.value,
          RuntimeVariable.reference, RuntimeVariable.memoryCache,
          RuntimeVariable.memoryGet, RuntimeVariable.withReference,
          RuntimeVariable.withMemoryCache, RuntimeVariable.make, ensureReference,
          RTValue.typeofStr, AdapterState.createHandle, Handles.create]
    | str s =>
      cases r <;> cases m <;>
        simp [convertFromRuntime, hl, RuntimeVariable.name, RuntimeVariable.value,
          RuntimeVariable.reference, RuntimeVariable.memoryCache,
          RuntimeVariable.memoryGet, RuntimeVariable.withReference,
          RuntimeVariable.withMemoryCache, RuntimeVariable.make, ensureReference,
          RTValue.typeofStr, AdapterState.createHandle, Handles.create]
    | arr es =>
      cases r <;> cases m <;>
        simp [convertFromRuntime, hl, RuntimeVariable.name, RuntimeVariable.value,
          RuntimeVariable.reference, RuntimeVariable.memoryCache,
          RuntimeVariable.memoryGet, RuntimeVariable.withReference,
          RuntimeVariable.withMemoryCache, RuntimeVariable.make, ensureReference,
          RTValue.typeofStr, AdapterState.createHandle, Handles.create]
  case true =>
    cases val <;> cases r <;> cases m <;>
      simp [convertFromRuntime, hl, RuntimeVariable.name, RuntimeVariable.value,
        RuntimeVariable.reference, RuntimeVariable.memoryCache,
        RuntimeVariable.memoryGet, RuntimeVariable.withReference,
        RuntimeVariable.withMemoryCache, RuntimeVariable.make, ensureReference,
        RTValue.typeofStr, AdapterState.createHandle, Handles.create]

/-- Witness for C8 at an array-valued variable (a composite whose first
formatting mints a handle) in the freshly constructed adapter. -/
theorem c8_reference_minting_idempotent_witness :
    (convertFromRuntime
        (convertFromRuntime (AdapterState.init none)
          (.mk "obj" (.arr [.mk "x" (.num 1) none none]) none none)).2.2
        (convertFromRuntime (AdapterState.init none)
          (.mk "obj" (.arr [.mk "x" (.num 1) none none]) none none)).2.1).1.variablesReference =
      (convertFromRuntime (AdapterState.init none)
        (.mk "obj" (.arr [.mk "x" (.num 1) none none]) none none)).1.variablesReference :=
  c8_reference_minting_idempotent (AdapterState.init none)
    (.mk "obj" (.arr [.mk "x" (.num 1) none none]) none none)

/-- C9: for every adapter state, every request whose command is not in
the fixed dispatch chain, and every follow-up request with a known
command, dispatching the unknown request fires no message (neither
synchronously nor deferred), logs exactly the unknown-command error, and
dispatching the follow-up request from the resulting state still emits
exactly one response. -/
theorem c9_unknown_command_no_response (st : AdapterState) (req next : Request)
    (h1 : knownCommands.contains req.command = false)
    (h2 : knownCommands.contains next.command = true) :
    (dispatchRequest st req).effects.emitted = [] ∧
    (dispatchRequest st req).effects.deferred = [] ∧
    (dispatchRequest st req).effects.logs =
      ["unknown request '" ++ req.command ++ "'"] ∧
    countResponses
      (dispatchRequest (dispatchRequest st req).state next).effects.transportOrder = 1 := by
  have hδ : dispatchRequest st req =
      ⟨st, Effects.log {} ("unknown request '" ++ req.command ++ "'")⟩ := by
    simp [knownCommands] at h1
    obtain ⟨hi, hs, hv, hd⟩ := h1
    simp [dispatchRequest, hi, hs, hv, hd]
  refine ⟨?_, ?_, ?_, ?_⟩
  · rw [hδ]; rfl
  · rw [hδ]; rfl
  · rw [hδ]; rfl
  · rw [hδ]; exact known_one_response st next h2

/-- Witness for C9 at the unknown command `frobnicate` followed by
`pause`. -/
theorem c9_unknown_command_no_response_witness :
    knownCommands.contains unknownCommandRequest.command = false ∧
    knownCommands.contains followUpRequest.command = true ∧
    (dispatchRequest (AdapterState.init none) unknownCommandRequest).effects.emitted = [] ∧
    countResponses
      (dispatchRequest
        (dispatchRequest (AdapterState.init none) unknownCommandRequest).state
        followUpRequest).effects.transportOrder = 1 :=
  ⟨by decide, by decide,
   (c9_unknown_command_no_response (AdapterState.init none) unknownCommandRequest
     followUpRequest (by decide) (by decide)).1,
   (c9_unknown_command_no_response (AdapterState.init none) unknownCommandRequest
     followUpRequest (by decide) (by decide)).2.2.2⟩

/-- C10: for every adapter state and every initialize request carrying
boolean `linesStartAt1` and `columnsStartAt1` arguments and an invalid
`pathFormat`, dispatch still stores the two flags into the adapter's
client origin configuration even though an error response is produced:
the error path is not atomic with respect to adapter state. -/
theorem c10_initialize_error_mutates_flags (st : AdapterState) (s : Int)
    (b c : Bool) (pf : Option String) (hp : pf ≠ some "path") :
    ((dispatchRequest st
        { seq := s
          command := "initialize"
          arguments :=
            { linesStartAt1 := some b
              columnsStartAt1 := some c
              pathFormat := pf } }).state.clientLinesStartAt1 = b) ∧
    ((dispatchRequest st
        { seq := s
          command := "initialize"
          arguments :=
            { linesStartAt1 := some b
              columnsStartAt1 := some c
              pathFormat := pf } }).state.clientColumnsStartAt1 = c) ∧
    ((dispatchRequest st
        { seq := s
          command := "initialize"
          arguments :=
            { linesStartAt1 := some b
              columnsStartAt1 := some c
              pathFormat := pf } }).effects.emitted =
      [OutMessage.response (invalidPathFormatResponse s)]) := by
  refine ⟨?_, ?_, ?_⟩ <;>
    (simp [dispatchRequest, hp, sendErrorResponse, sendResponse, sendRaw,
       ResponseMsg.ofRequest, invalidPathFormatResponse, nativePathsError]
     try decide)

/-- Witness for C10 at the `pathFormat = "uri"` request with
`linesStartAt1 = false`, `columnsStartAt1 = true`. -/
theorem c10_initialize_error_mutates_flags_witness :
    (some "uri" ≠ some "path") ∧
    (dispatchRequest (AdapterState.init none) uriPathFormatRequest).state.clientLinesStartAt1 = false ∧
    (dispatchRequest (AdapterState.init none) uriPathFormatRequest).state.clientColumnsStartAt1 = true :=
  ⟨by decide,
   (c10_initialize_error_mutates_flags (AdapterState.init none) 3 false true
     (some "uri") (by decide)).1,
   (c10_initialize_error_mutates_flags (AdapterState.init none) 3 false true
     (some "uri") (by decide)).2.1⟩

end MockDebug
